import Mathlib

/-!
Shallow embedding of the DroneForce backend verification core:
`src/validator/parser.py` (LogParser), `src/validator/validator.py`
(FlightValidator) and the report-hash construction of `src/main.py`
(process_drone_log).

Numeric values that Python holds as floats are modelled over an arbitrary
`LinearOrderedField α` (instantiated at `ℚ` for concrete evaluation and at
`ℝ` where the code calls `math.cos`).  Raw log bytes are `List Nat`
(each < 256).
-/

/-- One decoded telemetry message, the closed set of shapes the parser
inspects: a GPS position-fix record (`Status`, scaled `Lat`/`Lng`, `Alt` in
centimetres, timestamp), a named parameter record, or anything else
(ignored by the parser). -/
inductive Message (α : Type) where
  | gps (status : ℤ) (lat lng alt timestamp : α)
  | parm (name : String) (value : α)
  | other
  deriving DecidableEq

/-- Errors raised by `LogParser`: the spec's `ParseError` taxonomy.
`noValidGpsPoints` models `ValueError("No valid GPS points found in log
file")` raised by `LogParser.parse`. -/
inductive ParseError where
  | noValidGpsPoints
  deriving DecidableEq

/-- One captured GPS fix, as appended to `gps_points` by `LogParser.parse`:
fields already converted to engineering units. -/
structure GpsPoint (α : Type) where
  lat : α
  lng : α
  alt : α
  timestamp : α
  deriving DecidableEq

/-- The dict returned by `LogParser.parse`. -/
structure FlightData (α : Type) where
  gps_points : List (GpsPoint α)
  start_time : α
  end_time : α
  duration : α
  max_altitude : α
  avg_altitude : α
  operator_pubkey : Option α
  deriving DecidableEq

/-- Does a message pass the parser's capture test: a GPS message with
`Status >= 3` (3D fix or better)? -/
def Message.isGpsFix3D [LinearOrderedField α] : Message α → Bool
  | .gps status _ _ _ _ => decide (3 ≤ status)
  | _ => false

/-- The sample a qualifying GPS message contributes: `Lat`/`Lng` divided by
1e7 (scaled integer to degrees), `Alt` divided by 100 (centimetres to
metres). -/
def Message.capture [LinearOrderedField α] : Message α → Option (GpsPoint α)
  | .gps status lat lng alt timestamp =>
      if 3 ≤ status then
        some { lat := lat / 10000000, lng := lng / 10000000,
               alt := alt / 100, timestamp := timestamp }
      else none
  | _ => none

/-- `LogParser.parse` over the decoded message stream.  Collects the
qualifying GPS fixes in arrival order, tracks the last `OPERATOR_PUBKEY`
parameter value, errors when no fix qualified, and otherwise derives
`start_time = min(timestamps)`, `end_time = max(timestamps)`,
`duration = end_time - start_time if start_time and end_time else 0`
(the Python truthiness test: a timestamp equal to 0 is falsy),
`max_altitude = max(altitudes)`, `avg_altitude = sum/len`. -/
def LogParser.parse [LinearOrderedField α] (msgs : List (Message α)) :
    Except ParseError (FlightData α) :=
  let gps_points := msgs.filterMap Message.capture
  let operator_pubkey := msgs.foldl
    (fun acc m => match m with
      | .parm name value => if name = "OPERATOR_PUBKEY" then some value else acc
      | _ => acc) none
  match gps_points with
  | [] => .error .noValidGpsPoints
  | p :: ps =>
      let start_time := (ps.map GpsPoint.timestamp).foldl min p.timestamp
      let end_time := (ps.map GpsPoint.timestamp).foldl max p.timestamp
      let duration := if start_time ≠ 0 ∧ end_time ≠ 0 then end_time - start_time else 0
      let max_altitude := (ps.map GpsPoint.alt).foldl max p.alt
      let avg_altitude :=
        ((p :: ps).map GpsPoint.alt).sum / (((p :: ps).map GpsPoint.alt).length : α)
      .ok { gps_points := p :: ps, start_time := start_time, end_time := end_time,
            duration := duration, max_altitude := max_altitude,
            avg_altitude := avg_altitude, operator_pubkey := operator_pubkey }

/-- Center location, the `location` dict of the task spec. -/
structure LatLng (α : Type) where
  lat : α
  lng : α
  deriving DecidableEq

/-- The bounding box `self.bounds` computed by `FlightValidator.__init__`. -/
structure GeoBounds (α : Type) where
  min_lat : α
  max_lat : α
  min_lng : α
  max_lng : α
  deriving DecidableEq

/-- The state of a constructed `FlightValidator`: the parsed flight data,
the task parameters, and the derived bounding box. -/
structure FlightValidator (α : Type) where
  flight_data : FlightData α
  center_location : LatLng α
  area_size : α
  max_altitude : α
  min_duration : α
  geofencing_enabled : Bool
  bounds : GeoBounds α
  deriving DecidableEq

/-- `math.radians`: degrees to radians. -/
noncomputable def radians (x : ℝ) : ℝ := x * Real.pi / 180

/-- `FlightValidator.__init__`: stores the flight data and task parameters
and computes the bounding box with `lat_offset = (area_size / 2) / 111000`
and `lng_offset = (area_size / 2) / (111000 * cos(radians(lat)))`.  No
validation of the inputs is performed. -/
noncomputable def FlightValidator.init (flight_data : FlightData ℝ)
    (location : LatLng ℝ) (area_size max_altitude min_duration : ℝ)
    (geofencing_enabled : Bool) : FlightValidator ℝ :=
  let lat_offset := (area_size / 2) / 111000
  let lng_offset := (area_size / 2) / (111000 * Real.cos (radians location.lat))
  { flight_data := flight_data, center_location := location,
    area_size := area_size, max_altitude := max_altitude,
    min_duration := min_duration, geofencing_enabled := geofencing_enabled,
    bounds := { min_lat := location.lat - lat_offset,
                max_lat := location.lat + lat_offset,
                min_lng := location.lng - lng_offset,
                max_lng := location.lng + lng_offset } }

/-- `FlightValidator._validate_duration`:
`flight_data['duration'] >= min_duration`. -/
def FlightValidator.validateDuration [LinearOrderedField α]
    (v : FlightValidator α) : Bool :=
  decide (v.flight_data.duration ≥ v.min_duration)

/-- `FlightValidator._validate_altitude`:
`flight_data['max_altitude'] <= max_altitude`. -/
def FlightValidator.validateAltitude [LinearOrderedField α]
    (v : FlightValidator α) : Bool :=
  decide (v.flight_data.max_altitude ≤ v.max_altitude)

/-- The loop body of `FlightValidator._validate_geofence`: walk the points
in order and return `False` at the first one strictly outside the bounding
box, `True` when the list is exhausted. -/
def geofenceLoop [LinearOrderedField α] (b : GeoBounds α) :
    List (GpsPoint α) → Bool
  | [] => true
  | p :: rest =>
      if p.lat < b.min_lat ∨ p.lat > b.max_lat ∨
         p.lng < b.min_lng ∨ p.lng > b.max_lng then false
      else geofenceLoop b rest

/-- `FlightValidator._validate_geofence`. -/
def FlightValidator.validateGeofence [LinearOrderedField α]
    (v : FlightValidator α) : Bool :=
  geofenceLoop v.bounds v.flight_data.gps_points

/-- The geofence component as computed inside `validate` and
`get_validation_details`: trivially `True` when geofencing is disabled. -/
def FlightValidator.geofenceCheck [LinearOrderedField α]
    (v : FlightValidator α) : Bool :=
  if v.geofencing_enabled then v.validateGeofence else true

/-- `FlightValidator.validate`: conjunction of the three sub-checks. -/
def FlightValidator.validate [LinearOrderedField α]
    (v : FlightValidator α) : Bool :=
  v.validateDuration && v.validateAltitude && v.geofenceCheck

/-- The dict returned by `FlightValidator.get_validation_details`. -/
structure ValidationDetails where
  duration_valid : Bool
  altitude_valid : Bool
  geofence_valid : Bool
  overall_valid : Bool
  deriving DecidableEq

/-- `FlightValidator.get_validation_details`: recomputes the three
sub-checks with the same helpers and returns them with their
conjunction. -/
def FlightValidator.getValidationDetails [LinearOrderedField α]
    (v : FlightValidator α) : ValidationDetails :=
  let duration_valid := v.validateDuration
  let altitude_valid := v.validateAltitude
  let geofence_valid := if v.geofencing_enabled then v.validateGeofence else true
  { duration_valid := duration_valid, altitude_valid := altitude_valid,
    geofence_valid := geofence_valid,
    overall_valid := duration_valid && altitude_valid && geofence_valid }

/-! SHA-256 (`hashlib.sha256(...).hexdigest()`), implemented over `Nat`
with explicit reduction modulo 2^32, bytes as `Nat` values < 256. -/

/-- Truncate to an unsigned 32-bit value. -/
def u32 (x : Nat) : Nat := x % 4294967296

/-- Right rotation of a 32-bit word. -/
def rotr32 (n x : Nat) : Nat := u32 ((x >>> n) ||| (x <<< (32 - n)))

/-- SHA-256 choice function. -/
def sha2ch (e f g : Nat) : Nat := (e &&& f) ^^^ ((e ^^^ 4294967295) &&& g)

/-- SHA-256 majority function. -/
def sha2maj (a b c : Nat) : Nat := (a &&& b) ^^^ (a &&& c) ^^^ (b &&& c)

/-- Big sigma-0. -/
def bigSig0 (x : Nat) : Nat := rotr32 2 x ^^^ rotr32 13 x ^^^ rotr32 22 x

/-- Big sigma-1. -/
def bigSig1 (x : Nat) : Nat := rotr32 6 x ^^^ rotr32 11 x ^^^ rotr32 25 x

/-- Small sigma-0. -/
def smallSig0 (x : Nat) : Nat := rotr32 7 x ^^^ rotr32 18 x ^^^ (x >>> 3)

/-- Small sigma-1. -/
def smallSig1 (x : Nat) : Nat := rotr32 17 x ^^^ rotr32 19 x ^^^ (x >>> 10)

/-- The 64 SHA-256 round constants. -/
def sha2K : List Nat :=
  [1116352408, 1899447441, 3049323471, 3921009573, 961987163, 1508970993,
   2453635748, 2870763221, 3624381080, 310598401, 607225278, 1426881987,
   1925078388, 2162078206, 2614888103, 3248222580, 3835390401, 4022224774,
   264347078, 604807628, 770255983, 1249150122, 1555081692, 1996064986,
   2554220882, 2821834349, 2952996808, 3210313671, 3336571891, 3584528711,
   113926993, 338241895, 666307205, 773529912, 1294757372, 1396182291,
   1695183700, 1986661051, 2177026350, 2456956037, 2730485921, 2820302411,
   3259730800, 3345764771, 3516065817, 3600352804, 4094571909, 275423344,
   430227734, 506948616, 659060556, 883997877, 958139571, 1322822218,
   1537002063, 1747873779, 1955562222, 2024104815, 2227730452, 2361852424,
   2428436474, 2756734187, 3204031479, 3329325298]

/-- The SHA-256 initial hash value. -/
def sha2H0 : List Nat :=
  [1779033703, 3144134277, 1013904242, 2773480762,
   1359893119, 2600822924, 528734635, 1541459225]

/-- Extend a 16-word block by `n` further message-schedule words. -/
def sha2Extend : Nat → List Nat → List Nat
  | 0, w => w
  | n + 1, w =>
      let k := w.length
      let next := u32 (smallSig1 (w.getD (k - 2) 0) + w.getD (k - 7) 0 +
                       smallSig0 (w.getD (k - 15) 0) + w.getD (k - 16) 0)
      sha2Extend n (w ++ [next])

/-- The 64 compression rounds, consuming `(round constant, schedule word)`
pairs. -/
def sha2Rounds : List (Nat × Nat) →
    Nat × Nat × Nat × Nat × Nat × Nat × Nat × Nat →
    Nat × Nat × Nat × Nat × Nat × Nat × Nat × Nat
  | [], s => s
  | (k, wi) :: rest, (a, b, c, d, e, f, g, h) =>
      let t1 := u32 (h + bigSig1 e + sha2ch e f g + k + wi)
      let t2 := u32 (bigSig0 a + sha2maj a b c)
      sha2Rounds rest (u32 (t1 + t2), a, b, c, u32 (d + t1), e, f, g)

/-- Compress one 16-word block into the running hash state. -/
def sha2Compress (hs : List Nat) (block : List Nat) : List Nat :=
  let w := sha2Extend 48 block
  match hs with
  | [h0, h1, h2, h3, h4, h5, h6, h7] =>
      let (a, b, c, d, e, f, g, h) :=
        sha2Rounds (sha2K.zip w) (h0, h1, h2, h3, h4, h5, h6, h7)
      [u32 (h0 + a), u32 (h1 + b), u32 (h2 + c), u32 (h3 + d),
       u32 (h4 + e), u32 (h5 + f), u32 (h6 + g), u32 (h7 + h)]
  | other => other

/-- SHA-256 padding: append `0x80`, zeros to 56 mod 64, then the bit length
as 8 big-endian bytes. -/
def sha2Pad (msg : List Nat) : List Nat :=
  let bitLen := msg.length * 8
  let zeros := (119 - msg.length % 64) % 64
  msg ++ [0x80] ++ List.replicate zeros 0 ++
    [(bitLen >>> 56) % 256, (bitLen >>> 48) % 256, (bitLen >>> 40) % 256,
     (bitLen >>> 32) % 256, (bitLen >>> 24) % 256, (bitLen >>> 16) % 256,
     (bitLen >>> 8) % 256, bitLen % 256]

/-- Group bytes into big-endian 32-bit words. -/
def bytesToWords : List Nat → List Nat
  | b0 :: b1 :: b2 :: b3 :: rest =>
      ((b0 <<< 24) + (b1 <<< 16) + (b2 <<< 8) + b3) :: bytesToWords rest
  | _ => []

/-- Split a word list into 16-word blocks (`fuel` bounds the recursion). -/
def wordBlocks : Nat → List Nat → List (List Nat)
  | 0, _ => []
  | _, [] => []
  | n + 1, w => w.take 16 :: wordBlocks n (w.drop 16)

/-- The eight 32-bit digest words of SHA-256. -/
def sha256Words (msg : List Nat) : List Nat :=
  let padded := sha2Pad msg
  let words := bytesToWords padded
  (wordBlocks words.length words).foldl sha2Compress sha2H0

/-- One lowercase hexadecimal digit. -/
def hexChar (n : Nat) : Char :=
  if n < 10 then Char.ofNat (48 + n) else Char.ofNat (87 + n)

/-- Eight-hex-digit rendering of a 32-bit word. -/
def wordHex (w : Nat) : String :=
  String.mk ((List.range 8).map fun i => hexChar ((w >>> (28 - 4 * i)) % 16))

/-- `hashlib.sha256(bytes).hexdigest()`. -/
def sha256Hex (msg : List Nat) : String :=
  String.join ((sha256Words msg).map wordHex)

/-- The validation-relevant task parameters hashed by `process_drone_log`:
`location`, `area_size`, `altitude` (ceiling), `duration` (minimum) and
`geofencing_enabled`, in that dict order. -/
structure TaskSpec where
  location : LatLng ℚ
  area_size : ℚ
  altitude : ℚ
  duration : ℚ
  geofencing_enabled : Bool
  deriving DecidableEq

/-- JSON rendering of a numeric task parameter.  Integral values print
without a fractional part, as Python's `json.dumps` does for ints; the
non-integral branch is an approximation of Python's float formatting
(exact formatting is not load-bearing for any claim). -/
def jsonNum (q : ℚ) : String :=
  if q.den = 1 then toString q.num else toString q

/-- JSON rendering of a Python bool. -/
def jsonBool (b : Bool) : String := if b then "true" else "false"

/-- `str()` of a Python bool, as applied to the verification result. -/
def pyBoolStr (b : Bool) : String := if b then "True" else "False"

/-- `json.dumps` of the verification-params dict built in
`process_drone_log`, with its fixed insertion order of keys:
`location` (itself `lat` then `lng`), `area_size`, `altitude`, `duration`,
`geofencing_enabled`. -/
def serializeVerificationParams (ts : TaskSpec) : String :=
  "\x7b\"location\": \x7b\"lat\": " ++ jsonNum ts.location.lat ++
  ", \"lng\": " ++ jsonNum ts.location.lng ++
  "\x7d, \"area_size\": " ++ jsonNum ts.area_size ++
  ", \"altitude\": " ++ jsonNum ts.altitude ++
  ", \"duration\": " ++ jsonNum ts.duration ++
  ", \"geofencing_enabled\": " ++ jsonBool ts.geofencing_enabled ++ "\x7d"

/-- UTF-8 bytes of a string, as `Nat` values. -/
def strBytes (s : String) : List Nat := s.toUTF8.toList.map UInt8.toNat

/-- The byte string hashed by `process_drone_log`:
`log_content + verification_params.encode() + str(verification_result).encode()`,
in exactly that concatenation order. -/
def verificationData (log_content : List Nat) (ts : TaskSpec)
    (verification_result : Bool) : List Nat :=
  log_content ++ strBytes (serializeVerificationParams ts) ++
    strBytes (pyBoolStr verification_result)

/-- `verification_report_hash` of `process_drone_log`:
`hashlib.sha256(verification_data).hexdigest()`. -/
def verificationReportHash (log_content : List Nat) (ts : TaskSpec)
    (verification_result : Bool) : String :=
  sha256Hex (verificationData log_content ts verification_result)

/-- Full (non-short-circuiting) form of the geofence check, the spec's
universal quantification with inclusive boundaries. -/
def geofenceAll [LinearOrderedField α] (b : GeoBounds α)
    (pts : List (GpsPoint α)) : Bool :=
  pts.all fun p =>
    decide (b.min_lat ≤ p.lat ∧ p.lat ≤ b.max_lat ∧
            b.min_lng ≤ p.lng ∧ p.lng ≤ b.max_lng)

/-- A flight-data value whose samples are irrelevant, used where a
counterexample needs some concrete `FlightData ℝ`. -/
def zeroFlightData : FlightData ℝ :=
  { gps_points := [], start_time := 0, end_time := 0, duration := 0,
    max_altitude := 0, avg_altitude := 0, operator_pubkey := none }

/-- The decoded message stream of the spec's Scenario A: three 3D-fix GPS
samples at the task center `(10.0, 20.0)` (raw scaled-integer fields),
altitudes 10, 20, 15 metres (raw centimetre fields), timestamps 0, 30,
61. -/
def scenarioAMsgs : List (Message ℚ) :=
  [Message.gps 3 100000000 200000000 1000 0,
   Message.gps 3 100000000 200000000 2000 30,
   Message.gps 3 100000000 200000000 1500 61]

/-- What `LogParser.parse` returns on Scenario A's messages.  Note
`duration = 0`: `start_time` is `0`, which the Python truthiness test
`if start_time and end_time` treats as false. -/
def scenarioAFlightData : FlightData ℚ :=
  { gps_points := [⟨10, 20, 10, 0⟩, ⟨10, 20, 20, 30⟩, ⟨10, 20, 15, 61⟩],
    start_time := 0, end_time := 61, duration := 0, max_altitude := 20,
    avg_altitude := 15, operator_pubkey := none }

/-- Two 3D-fix GPS samples with timestamps 0 and 61, exercising the
duration computation when the earliest timestamp is zero. -/
def c2Msgs : List (Message ℚ) :=
  [Message.gps 3 0 0 1000 0, Message.gps 3 0 0 1000 61]

/-- What `LogParser.parse` returns on `c2Msgs`. -/
def c2FlightData : FlightData ℚ :=
  { gps_points := [⟨0, 0, 10, 0⟩, ⟨0, 0, 10, 61⟩], start_time := 0,
    end_time := 61, duration := 0, max_altitude := 10, avg_altitude := 10,
    operator_pubkey := none }

/-- A concrete task-parameter record for witnesses. -/
def sampleTaskSpec : TaskSpec :=
  { location := ⟨10, 20⟩, area_size := 100, altitude := 50, duration := 60,
    geofencing_enabled := true }

/-! Helper lemmas. -/

/-- A message that fails the 3D-fix test contributes no sample. -/
theorem capture_eq_none_of_not_fix {α : Type} [LinearOrderedField α]
    (m : Message α) (h : m.isGpsFix3D = false) : m.capture = none := by
  cases m with
  | gps s lat lng alt t =>
    simp only [Message.isGpsFix3D, decide_eq_false_iff_not] at h
    simp [Message.capture, h]
  | parm n v => rfl
  | other => rfl

/-- The short-circuiting geofence loop computes the same boolean as the
full universal check. -/
theorem geofenceLoop_eq_all {α : Type} [LinearOrderedField α]
    (b : GeoBounds α) (pts : List (GpsPoint α)) :
    geofenceLoop b pts = geofenceAll b pts := by
  induction pts with
  | nil => rfl
  | cons p rest ih =>
    simp only [geofenceLoop, geofenceAll, List.all_cons]
    by_cases h : p.lat < b.min_lat ∨ p.lat > b.max_lat ∨
        p.lng < b.min_lng ∨ p.lng > b.max_lng
    · rw [if_pos h]
      have hP : ¬(b.min_lat ≤ p.lat ∧ p.lat ≤ b.max_lat ∧
          b.min_lng ≤ p.lng ∧ p.lng ≤ b.max_lng) := by
        rintro ⟨h1, h2, h3, h4⟩
        rcases h with h | h | h | h
        · exact absurd h1 (not_le.mpr h)
        · exact absurd h2 (not_le.mpr h)
        · exact absurd h3 (not_le.mpr h)
        · exact absurd h4 (not_le.mpr h)
      simp [hP]
    · rw [if_neg h]
      push_neg at h
      obtain ⟨h1, h2, h3, h4⟩ := h
      rw [ih, geofenceAll]
      simp [h1, h2, h3, h4]

/-! Claim theorems. -/

/-- C1: the spec's Scenario A (center `(10.0, 20.0)`, `area_size = 100`,
`max_altitude = 50`, `min_duration = 60`, geofencing on; three samples at
the center with altitudes 10, 20, 15 and timestamps 0, 30, 61) is claimed
to yield `duration = 61` and `overall = true`.  On the code the parser
instead returns `duration = 0` — `start_time = 0` fails the Python
truthiness test `if start_time and end_time` — so the duration check and
the overall verdict are false, whatever bounding box the validator
derived. -/
theorem c1_scenarioA_divergence :
    LogParser.parse scenarioAMsgs = Except.ok scenarioAFlightData ∧
    scenarioAFlightData.duration = 0 ∧
    scenarioAFlightData.end_time - scenarioAFlightData.start_time = 61 ∧
    ∀ b : GeoBounds ℚ,
      (FlightValidator.mk scenarioAFlightData ⟨10, 20⟩ 100 50 60 true b).validate = false :=
  ⟨by norm_num [LogParser.parse, scenarioAMsgs, scenarioAFlightData, Message.capture,
      List.filterMap_cons, List.foldl, min_def, max_def, FlightData.mk.injEq],
   rfl, by norm_num [scenarioAFlightData], fun _ => rfl⟩

/-- C2: `parse` is claimed to return `duration = end_time - start_time`
whenever at least one sample qualifies.  A recording whose earliest
timestamp is 0 refutes this: `start_time = 0` is falsy in the guard
`if start_time and end_time`, so the code returns `duration = 0` while
`end_time - start_time = 61`.  The remaining fields (`start_time`,
`end_time`, `max_altitude`, `avg_altitude`) match the claim. -/
theorem c2_duration_truthiness_bug :
    LogParser.parse c2Msgs = Except.ok c2FlightData ∧
    c2FlightData.duration = 0 ∧
    c2FlightData.end_time - c2FlightData.start_time = 61 ∧
    c2FlightData.duration ≠ c2FlightData.end_time - c2FlightData.start_time :=
  ⟨by norm_num [LogParser.parse, c2Msgs, c2FlightData, Message.capture,
      List.filterMap_cons, List.foldl, min_def, max_def, FlightData.mk.injEq],
   rfl, by norm_num [c2FlightData], by norm_num [c2FlightData]⟩

/-- C3: the report hash is the hex SHA-256 digest of
`raw_bytes ++ serialized_params ++ str(overall)`, concatenated in exactly
that order with the params serialized in fixed field order, and the
construction is deterministic: equal inputs give the identical digest. -/
theorem c3_report_hash_structure (log_content : List Nat) (ts ts' : TaskSpec)
    (r r' : Bool) (hts : ts = ts') (hr : r = r') :
    verificationReportHash log_content ts r =
      sha256Hex (log_content ++ strBytes (serializeVerificationParams ts) ++
        strBytes (pyBoolStr r)) ∧
    verificationReportHash log_content ts r =
      verificationReportHash log_content ts' r' := by
  subst hts
  subst hr
  exact ⟨rfl, rfl⟩

/-- Witness for C3 at concrete inputs. -/
theorem c3_report_hash_witness :
    sampleTaskSpec = sampleTaskSpec ∧ (true = true) ∧
    (verificationReportHash [7, 7, 7] sampleTaskSpec true =
      sha256Hex ([7, 7, 7] ++ strBytes (serializeVerificationParams sampleTaskSpec) ++
        strBytes (pyBoolStr true)) ∧
     verificationReportHash [7, 7, 7] sampleTaskSpec true =
      verificationReportHash [7, 7, 7] sampleTaskSpec true) :=
  ⟨rfl, rfl, c3_report_hash_structure [7, 7, 7] sampleTaskSpec sampleTaskSpec true true rfl rfl⟩

/-- C4: with geofencing disabled the geofence component is trivially true;
with it enabled it is true exactly when every sample lies inside the
bounding box with inclusive edges; and the short-circuiting loop agrees
with the full universal quantification. -/
theorem c4_geofence_semantics {α : Type} [LinearOrderedField α]
    (v : FlightValidator α) :
    (v.geofenceCheck = true ↔
      (v.geofencing_enabled = false ∨
        ∀ p ∈ v.flight_data.gps_points,
          v.bounds.min_lat ≤ p.lat ∧ p.lat ≤ v.bounds.max_lat ∧
          v.bounds.min_lng ≤ p.lng ∧ p.lng ≤ v.bounds.max_lng)) ∧
    v.validateGeofence = geofenceAll v.bounds v.flight_data.gps_points := by
  refine ⟨?_, geofenceLoop_eq_all v.bounds v.flight_data.gps_points⟩
  unfold FlightValidator.geofenceCheck
  cases hg : v.geofencing_enabled
  · simp
  · simp [FlightValidator.validateGeofence, geofenceLoop_eq_all, geofenceAll,
      List.all_eq_true, decide_eq_true_eq]

/-- C5: a message stream in which no message passes the 3D-fix capture
test makes `parse` fail with the no-valid-GPS-points error rather than
return any summary. -/
theorem c5_empty_rejection {α : Type} [LinearOrderedField α]
    (msgs : List (Message α)) (h : ∀ m ∈ msgs, m.isGpsFix3D = false) :
    LogParser.parse msgs = Except.error ParseError.noValidGpsPoints := by
  have hnil : msgs.filterMap Message.capture = [] := by
    induction msgs with
    | nil => rfl
    | cons m rest ih =>
      rw [List.filterMap_cons,
        capture_eq_none_of_not_fix m (h m (List.mem_cons_self m rest))]
      exact ih fun x hx => h x (List.mem_cons_of_mem m hx)
  simp [LogParser.parse, hnil]

/-- Witness for C5: a stream with a parameter message, an ignored message
and a 2D-fix GPS message is rejected. -/
theorem c5_empty_rejection_witness :
    (∀ m ∈ [Message.parm "ARMED" (1 : ℚ), Message.other, Message.gps 2 0 0 0 5],
      m.isGpsFix3D = false) ∧
    LogParser.parse [Message.parm "ARMED" (1 : ℚ), Message.other, Message.gps 2 0 0 0 5] =
      Except.error ParseError.noValidGpsPoints :=
  ⟨by decide, c5_empty_rejection _ (by decide)⟩

/-- C6: `validate` agrees with `get_validation_details` on the overall
verdict and on every sub-check, and the returned `overall_valid` is the
conjunction of the three returned sub-checks. -/
theorem c6_validate_details_agree {α : Type} [LinearOrderedField α]
    (v : FlightValidator α) :
    v.validate = v.getValidationDetails.overall_valid ∧
    v.getValidationDetails.duration_valid = v.validateDuration ∧
    v.getValidationDetails.altitude_valid = v.validateAltitude ∧
    v.getValidationDetails.geofence_valid = v.geofenceCheck ∧
    v.getValidationDetails.overall_valid =
      (v.getValidationDetails.duration_valid &&
       v.getValidationDetails.altitude_valid &&
       v.getValidationDetails.geofence_valid) :=
  ⟨rfl, rfl, rfl, rfl, rfl⟩

/-- C7: the duration check holds exactly when
`duration >= min_duration` and the altitude check exactly when
`max_altitude <= limit`; both comparisons are inclusive, so exact
equality passes. -/
theorem c7_duration_altitude_inclusive {α : Type} [LinearOrderedField α]
    (v : FlightValidator α) :
    (v.validateDuration = true ↔ v.min_duration ≤ v.flight_data.duration) ∧
    (v.validateAltitude = true ↔ v.flight_data.max_altitude ≤ v.max_altitude) := by
  constructor
  · simp [FlightValidator.validateDuration, ge_iff_le]
  · simp [FlightValidator.validateAltitude]

/-- C8: the bounding box derived by the validator constructor is the
center offset by `(area_size / 2) / 111000` in latitude and by
`(area_size / 2) / (111000 * cos(radians(lat)))` in longitude. -/
theorem c8_bounds_formula (fd : FlightData ℝ) (loc : LatLng ℝ)
    (area maxAlt minDur : ℝ) (g : Bool) :
    (FlightValidator.init fd loc area maxAlt minDur g).bounds.min_lat =
      loc.lat - (area / 2) / 111000 ∧
    (FlightValidator.init fd loc area maxAlt minDur g).bounds.max_lat =
      loc.lat + (area / 2) / 111000 ∧
    (FlightValidator.init fd loc area maxAlt minDur g).bounds.min_lng =
      loc.lng - (area / 2) / (111000 * Real.cos (radians loc.lat)) ∧
    (FlightValidator.init fd loc area maxAlt minDur g).bounds.max_lng =
      loc.lng + (area / 2) / (111000 * Real.cos (radians loc.lat)) :=
  ⟨rfl, rfl, rfl, rfl⟩

/-- C9 counterexample: a task centered at latitude 100 (outside ±90) is
not rejected; the constructor still derives a bounding box from it. -/
theorem c9_counterexample :
    (100 : ℝ) > 90 ∧
    (FlightValidator.init zeroFlightData ⟨100, 0⟩ 100 50 60 true).bounds.min_lat =
      100 - (100 / 2) / 111000 ∧
    (FlightValidator.init zeroFlightData ⟨100, 0⟩ 100 50 60 true).bounds.max_lat =
      100 + (100 / 2) / 111000 :=
  ⟨by norm_num, rfl, rfl⟩

/-- C9 amended: the code performs no domain check on the center latitude;
for every center, valid or not, the constructor computes the bounding box
by the offset formulas and never rejects. -/
theorem c9_no_domain_check (fd : FlightData ℝ) (loc : LatLng ℝ)
    (area maxAlt minDur : ℝ) (g : Bool) :
    (FlightValidator.init fd loc area maxAlt minDur g).bounds =
      ⟨loc.lat - (area / 2) / 111000, loc.lat + (area / 2) / 111000,
       loc.lng - (area / 2) / (111000 * Real.cos (radians loc.lat)),
       loc.lng + (area / 2) / (111000 * Real.cos (radians loc.lat))⟩ :=
  rfl

/-- C10: two flight summaries agreeing on duration, maximum altitude and
the sample list get the same verdict from `validate` and
`get_validation_details` under any task parameters and bounding box,
whatever their `operator_pubkey`, `avg_altitude`, `start_time` and
`end_time`. -/
theorem c10_operator_independence {α : Type} [LinearOrderedField α]
    (fd₁ fd₂ : FlightData α) (loc : LatLng α) (area maxAlt minDur : α)
    (g : Bool) (b : GeoBounds α)
    (hdur : fd₁.duration = fd₂.duration)
    (halt : fd₁.max_altitude = fd₂.max_altitude)
    (hpts : fd₁.gps_points = fd₂.gps_points) :
    (FlightValidator.mk fd₁ loc area maxAlt minDur g b).validate =
      (FlightValidator.mk fd₂ loc area maxAlt minDur g b).validate ∧
    (FlightValidator.mk fd₁ loc area maxAlt minDur g b).getValidationDetails =
      (FlightValidator.mk fd₂ loc area maxAlt minDur g b).getValidationDetails := by
  simp [FlightValidator.validate, FlightValidator.getValidationDetails,
    FlightValidator.validateDuration, FlightValidator.validateAltitude,
    FlightValidator.geofenceCheck, FlightValidator.validateGeofence,
    hdur, halt, hpts]

/-- Witness for C10: two summaries differing in `start_time`, `end_time`,
`avg_altitude` and `operator_pubkey` only. -/
theorem c10_operator_independence_witness :
    (FlightData.mk [] 0 0 61 20 15 none : FlightData ℚ).duration =
      (FlightData.mk [] 5 66 61 20 99 (some 7) : FlightData ℚ).duration ∧
    (FlightData.mk [] 0 0 61 20 15 none : FlightData ℚ).max_altitude =
      (FlightData.mk [] 5 66 61 20 99 (some 7) : FlightData ℚ).max_altitude ∧
    (FlightData.mk [] 0 0 61 20 15 none : FlightData ℚ).gps_points =
      (FlightData.mk [] 5 66 61 20 99 (some 7) : FlightData ℚ).gps_points ∧
    ((FlightValidator.mk (FlightData.mk [] 0 0 61 20 15 none : FlightData ℚ) ⟨10, 20⟩ 100 50 60 true
        ⟨9, 11, 19, 21⟩).validate =
      (FlightValidator.mk (FlightData.mk [] 5 66 61 20 99 (some 7) : FlightData ℚ) ⟨10, 20⟩ 100 50 60 true
        ⟨9, 11, 19, 21⟩).validate ∧
     (FlightValidator.mk (FlightData.mk [] 0 0 61 20 15 none : FlightData ℚ) ⟨10, 20⟩ 100 50 60 true
        ⟨9, 11, 19, 21⟩).getValidationDetails =
      (FlightValidator.mk (FlightData.mk [] 5 66 61 20 99 (some 7) : FlightData ℚ) ⟨10, 20⟩ 100 50 60 true
        ⟨9, 11, 19, 21⟩).getValidationDetails) :=
  ⟨rfl, rfl, rfl,
   c10_operator_independence (FlightData.mk [] 0 0 61 20 15 none : FlightData ℚ)
     (FlightData.mk [] 5 66 61 20 99 (some 7)) ⟨10, 20⟩ 100 50 60 true
     ⟨9, 11, 19, 21⟩ rfl rfl rfl⟩
